import Mathlib

set_option maxRecDepth 100000

/-!
Shallow embedding of `src/uv-create.py` (class `UVCreateTemplate`), the
template-management and project-generation tool, together with theorems
settling the frozen claims about it.

Modelling conventions:
* Filesystem paths are lists of components (`Path`); the filesystem is a
  set of directories plus a map from file paths to contents (`FS`).
* The template store (the `.toml` files of `template_dir`) is kept apart
  from the project filesystem as an association list name ↦ body, since
  no claim mixes the two trees.
* Python's truthiness test `if not author_name` on an optional string is
  `isFalsy` (absent or empty).
* `str.format` with the three keyword arguments is `render`: brace pairs
  are parsed left to right, `{{`/`}}` are escapes for literal braces, a
  field named `project_name`/`author_name`/`author_email` is substituted,
  any other field raises (Python raises `KeyError`; conversion/format
  specs after `!`/`:` are not modelled — the repository's templates use
  none, and such a field is treated like an unknown name), and an
  unpaired brace raises (Python raises `ValueError`).
* The external `uv init` subprocess is an opaque parameter
  `uv : FS → Bool × FS` (exit status and filesystem effect); the optional
  `.pre-commit-config.yaml` next to the tool is a parameter
  `preCommitSrc : Option String`.
* Literal braces inside Lean string literals are written with the `\x7b`
  and `\x7d` escapes.
-/

namespace UVCreate

/-- Filesystem path, as a list of name components. -/
abbrev Path := List String

/-- Snapshot of the project filesystem: existing directories and files. -/
structure FS where
  dirs : List Path
  files : List (Path × String)
deriving DecidableEq

/-- Ancestor-or-self test on paths: `pathLe p q` holds when `q` lies in the
tree rooted at `p` (i.e. `p` is an initial segment of `q`). -/
def pathLe : Path → Path → Bool
  | [], _ => true
  | _, [] => false
  | a :: p, b :: q => a == b && pathLe p q

/-- Directory existence. -/
def FS.isDir (fs : FS) (p : Path) : Bool :=
  fs.dirs.any (fun d => d == p)

/-- File existence. -/
def FS.isFile (fs : FS) (p : Path) : Bool :=
  fs.files.any (fun f => f.1 == p)

/-- Python `Path.exists()`: a directory or a file at `p`. -/
def FS.pathExists (fs : FS) (p : Path) : Bool :=
  fs.isDir p || fs.isFile p

/-- Every nonempty initial segment of `p`, shortest first, ending in `p`
itself. -/
def ancestorsOf : Path → List Path
  | [] => []
  | x :: rest => [x] :: (ancestorsOf rest).map (fun q => x :: q)

/-- Python `path.mkdir(parents=True)`: create `p` and all its ancestors. -/
def FS.mkdirParents (fs : FS) (p : Path) : FS :=
  ⟨ancestorsOf p ++ fs.dirs, fs.files⟩

/-- Parent directory of a path. -/
def parentDir (p : Path) : Path := p.dropLast

/-- Python `open(p, "w")` followed by a full write: succeeds when the parent
directory exists and `p` itself is not a directory, replacing any previous
file at `p`; `none` models the raised `OSError` otherwise. -/
def FS.writeFile (fs : FS) (p : Path) (content : String) : Option FS :=
  if fs.isDir (parentDir p) && !fs.isDir p then
    some ⟨fs.dirs, (p, content) :: fs.files.filter (fun f => !(f.1 == p))⟩
  else none

/-- Python `shutil.rmtree(p)`: remove the tree rooted at `p`. -/
def FS.rmtree (fs : FS) (p : Path) : FS :=
  ⟨fs.dirs.filter (fun d => !(pathLe p d)),
   fs.files.filter (fun f => !(pathLe p f.1))⟩

/-- Content of the file at `p`, when one exists. -/
def FS.fileContent (fs : FS) (p : Path) : Option String :=
  (fs.files.find? (fun f => f.1 == p)).map (fun f => f.2)

/-- Nothing at all exists at or below `p` (no claim-relevant leftovers). -/
def FS.noEntryUnder (fs : FS) (p : Path) : Bool :=
  fs.dirs.all (fun d => !(pathLe p d)) && fs.files.all (fun f => !(pathLe p f.1))

end UVCreate

namespace UVCreate

/-- Python truthiness of an optional string argument: `not x` is true for an
absent value and for the empty string. -/
def isFalsy : Option String → Bool
  | none => true
  | some s => s == ""

/-- Error raised by `str.format` (shallowly): an unknown field name
(`KeyError`) or a malformed brace structure (`ValueError`). -/
inductive RenderError
  | keyError (field : String)
  | valueError
deriving DecidableEq

/-- Recognized format fields: the keyword arguments of the `format` call
(lines 194–198). -/
def fieldValue (pn an ae : String) (field : String) : Option String :=
  if field = "project_name" then some pn
  else if field = "author_name" then some an
  else if field = "author_email" then some ae
  else none

/-- Python `text.format(project_name=pn, author_name=an, author_email=ae)`
as a single left-to-right scan over the character list (see the header for
the modelled subset). `inField` holds the characters of the currently open
field in reverse order; `none` means ordinary text. -/
def renderChars (pn an ae : String) (inField : Option (List Char)) :
    List Char → Except RenderError (List Char)
  | [] =>
    match inField with
    | none => .ok []
    | some _ => .error .valueError
  | c :: rest =>
    match inField with
    | some acc =>
      if c = '}' then
        match fieldValue pn an ae (String.mk acc.reverse) with
        | none => .error (.keyError (String.mk acc.reverse))
        | some v => (renderChars pn an ae none rest).map (fun t => v.data ++ t)
      else if c = '{' then .error .valueError
      else renderChars pn an ae (some (c :: acc)) rest
    | none =>
      if c = '{' then
        match rest with
        | [] => .error .valueError
        | c2 :: rest2 =>
          if c2 = '{' then (renderChars pn an ae none rest2).map (fun t => '{' :: t)
          else if c2 = '}' then .error (.keyError "")
          else renderChars pn an ae (some [c2]) rest2
      else if c = '}' then
        match rest with
        | [] => .error .valueError
        | c2 :: rest2 =>
          if c2 = '}' then (renderChars pn an ae none rest2).map (fun t => '}' :: t)
          else .error .valueError
      else (renderChars pn an ae none rest).map (fun t => c :: t)

/-- Placeholder substitution on template text (lines 193–198 of the source). -/
def render (body pn an ae : String) : Except RenderError String :=
  (renderChars pn an ae none body.data).map String.mk

end UVCreate
namespace UVCreate

/-- Literal text of the basic template before the `project_name` marker. -/
def basicSeg0 : String := "

[project]
name = \""

/-- Literal text between the `project_name` marker and the doubled opening brace. -/
def basicSeg1 : String := "\"
version = \"0.1.0\"
description = \"A basic Python project\"
authors = [
    "

/-- Literal text between the doubled opening brace and the `author_name` marker. -/
def basicSeg2 : String := "name = \""

/-- Literal text between the `author_name` and `author_email` markers. -/
def basicSeg3 : String := "\", email = \""

/-- Literal text between the `author_email` marker and the doubled closing brace. -/
def basicSeg4 : String := "\""

/-- Literal text of the basic template after the doubled closing brace. -/
def basicSeg5 : String := "
]
dependencies = []
readme = \"README.md\"
requires-python = \">=3.11\"

[dependency-groups]
dev = [
    \"pytest>=7.0\",
    \"black>=22.0\",
    \"ruff>=0.1.0\",
    \"pre-commit>=2.0.0\",
    \"mypy>=0.910\"
]
[[tool.uv.index]]
name = \"pytorch-cu118\"
url = \"https://download.pytorch.org/whl/cu118\"
explicit = true

### CODE FORMATTING

[tool.black]
# https://black.readthedocs.io/en/stable/the_black_code_style/current_style.html#line-length
line-length = 100
# Assume Python 3.11 (see `ruff`)
target-version = ['py311']
extend-exclude = '''
(
  ^/notebooks
  | ^/.pytest_cache
  | ^/.ruff_cache
)
'''

### CODE STYLE ENFORCEMENT

[tool.ruff]
fix = true
lint.select = [
    \"A\", \"B\", \"C\", \"D\", \"E\", \"F\", \"G\", \"I\", \"N\", \"Q\", \"S\", \"T\", \"W\", \"ANN\",
    \"ARG\", \"BLE\", \"COM\", \"DJ\", \"DTZ\", \"EM\", \"ERA\", \"EXE\", \"FBT\", \"ICN\", \"INP\",
    \"ISC\", \"NPY\", \"PD\", \"PGH\", \"PIE\", \"PL\", \"PT\", \"PTH\", \"PYI\", \"RET\", \"RSE\",
    \"RUF\", \"SIM\", \"SLF\", \"TCH\", \"TID\", \"TRY\", \"UP\", \"YTT\",
]
lint.ignore = [\"D203\", \"D212\", \"D400\", \"D415\", \"PLR0913\", \"PLC0415\"]
exclude = [
    \".git\",
    \".mypy_cache\",
    \".pytest_cache\",
    \".ruff_cache\",
    \"build\",
    \"dist\",
    \"tests\",
]
# Useful for pre-commit: https://beta.ruff.rs/docs/settings/#force-exclude
force-exclude = true
# https://black.readthedocs.io/en/stable/the_black_code_style/current_style.html#line-length
line-length = 100
# Allow unused variables when underscore-prefixed.
# dummy-variable-rgx = \"^(_+|(_+[a-zA-Z0-9_]*[a-zA-Z0-9]+?))$\"
# Assume Python 3.11 (see `black`)
target-version = \"py311\"

[tool.ruff.lint.mccabe]
max-complexity = 10

### TYPE CHECKING

[tool.mypy]
files = \".\"
ignore_missing_imports = true
exclude = [\"tests\"]

### SECURITY

# NO CONFIGURATION REQUIRED. INCLUDED IN `ruff` (e.g., `bandit`) AND `pipenv check`.

### TESTING

[tool.pytest.ini_options]
addopts = \"--cov --cov-fail-under=1 --dist=loadscope -n auto\"

[tool.coverage.run]
source = [\".\"]

[tool.coverage.report]
show_missing = true
omit = [\"*/tests/*\"]
exclude_lines = [
    \"pragma: no cover\",
    \"def __repr__\",
    \"raise AssertionError\",
    \"raise NotImplementedError\",
    \"if __name__ == .__main__.:\"
]
"

/-- Method `get_basic_template` (lines 33–137): the canonical body of the
built-in `basic` template — the source's literal, split here at its three
placeholder markers and two doubled-brace escapes (`basicSeg0` … `basicSeg5`
hold the plain text between them, in order). -/
def get_basic_template : String :=
  basicSeg0 ++ "\x7bproject_name\x7d" ++ basicSeg1 ++ "\x7b\x7b" ++ basicSeg2
    ++ "\x7bauthor_name\x7d" ++ basicSeg3 ++ "\x7bauthor_email\x7d" ++ basicSeg4
    ++ "\x7d\x7d" ++ basicSeg5

/-- Starter `main.py` written for the `web` template (lines 237–252). -/
def web_main_content : String := "from fastapi import FastAPI
        

app = FastAPI()

@app.get(\"/\")
async def root():
    return \x7b\"message\": \"Hello World\"\x7d

def main():
    \x69mport uvicorn
    uvicorn.run(app, host=\"0.0.0.0\", port=8000)

if __name__ == \"__main__\":
    main()
"

/-- Starter `cli.py` written for the `cli` template (lines 259–270). -/
def cli_main_content : String := "\x69mport click


@click.command()
@click.option('--name', default='World', help='Name to greet')
def main(name):
    \"\"\"Simple CLI application\"\"\"
    click.echo(f'Hello \x7bname\x7d!')

if __name__ == '__main__':
    main()
"

/-- Synthesized pre-commit configuration written when no `.pre-commit-config.yaml` exists next to the tool (lines 281–333). -/
def default_pre_commit_content : String := "
repos:
  - repo: local
    hooks:

      ### CODE FORMATTING

      - id: black
        name: black
        stages: [ pre-commit ]
        language: system
        entry: pipenv run black .
        types: [ python ]

      ### CODE STYLE ENFORCEMENT

      - id: ruff
        name: ruff
        stages: [ pre-commit ]
        language: system
        entry: pipenv run ruff check .
        types: [ python ]

      ### TYPE CHECKING

      - id: mypy
        name: mypy
        stages: [ pre-commit ]
        language: system
        entry: pipenv run mypy .
        types: [ python ]
        pass_filenames: false

      ### SECURITY

      - id: check
        name: check
        stages: [ pre-push ]
        language: system
        entry: pipenv check
        types: [ python ]

      ### TESTING

      - id: pytest
        name: pytest
        stages: [ pre-push ]
        language: system
        entry: pipenv run pytest
        types: [ python ]
        pass_filenames: false

"

end UVCreate

namespace UVCreate

/-- The template store: the `.toml` files of `template_dir`, as an
association list name ↦ body (lookup takes the first binding, matching the
unique file per name). -/
abbrev Store := List (String × String)

/-- Method `list_templates` (lines 139–144): the stems of the `*.toml`
files present in the store. -/
def list_templates (store : Store) : List String :=
  store.map (fun t => t.1)

/-- Reading the named template file when it exists (lines 183–191). -/
def lookupTemplate (store : Store) (name : String) : Option String :=
  (store.find? (fun t => t.1 == name)).map (fun t => t.2)

/-- Writing the named template file: overwrite the existing file or create
a new one. -/
def writeTemplate (store : Store) (name content : String) : Store :=
  if store.any (fun t => t.1 == name) then
    store.map (fun t => if t.1 == name then (name, content) else t)
  else store ++ [(name, content)]

/-- The hardcoded default-template mapping of lines 25 and 361, keyed by
`basic` only. -/
def default_templates : Store := [("basic", get_basic_template)]

/-- Outcome of `reset_default_template`: success, or the report
`Error: Template ... does not exist!`. -/
inductive ResetOutcome
  | ok
  | unknownTemplate
deriving DecidableEq

/-- Method `reset_default_template` (lines 359–375). For `"all"` the source
recurses once per built-in name; each such name is a key of
`default_templates`, so that recursion always takes the write branch, which
the fold below inlines. -/
def reset_default_template (store : Store) (template_name : String) :
    ResetOutcome × Store :=
  if template_name = "all" then
    (.ok, default_templates.foldl (fun s t => writeTemplate s t.1 t.2) store)
  else
    match lookupTemplate default_templates template_name with
    | none => (.unknownTemplate, store)
    | some body => (.ok, writeTemplate store template_name body)

/-- Author-name defaulting (lines 157–158): `os.getenv("USER", "Your Name")`
when the argument is falsy; `env_user` holds the `USER` environment
variable. -/
def resolve_author_name (env_user : Option String) (author_name : Option String) : String :=
  if isFalsy author_name then env_user.getD "Your Name" else author_name.getD ""

/-- ASCII model of Python `str.lower()` (`String.toLower` itself is not
kernel-reducible). -/
def pyLower (s : String) : String := String.mk (s.data.map Char.toLower)

/-- Python `s.replace(' ', '.')`: every space becomes a dot. -/
def dotSpaces (s : String) : String :=
  String.mk (s.data.map (fun c => if c = ' ' then '.' else c))

/-- Derived email (line 160): lower-cased author name with spaces replaced
by dots, followed by the fixed domain. -/
def deriveEmail (author_name : String) : String :=
  dotSpaces (pyLower author_name) ++ "@example.com"

/-- Author-email defaulting (lines 159–160). -/
def resolve_author_email (author_name : String) (author_email : Option String) : String :=
  if isFalsy author_email then deriveEmail author_name else author_email.getD ""

/-- Target-directory resolution (lines 162–166): the explicit override, else
the working directory joined with the project name. -/
def resolveTarget (cwd : Path) (project_name : String) (target_dir : Option Path) : Path :=
  match target_dir with
  | some t => t
  | none => cwd ++ [project_name]

/-- The failure reports of `create_project`, one per message printed before
the method returns `False`. -/
inductive CreateError
  | alreadyExists
  | bootstrapFailed
  | templateNotFound (available : List String)
  | unexpected
deriving DecidableEq

deriving instance DecidableEq for Except

/-- Observable outcome of `create_project`: the returned status, the final
filesystem, and whether the external bootstrap command was invoked. -/
structure CPOut where
  result : Except CreateError Unit
  fs : FS
  ranBootstrap : Bool
deriving DecidableEq

/-- Guarded rollback of the exception handlers (lines 220–221 and 225–226):
remove the tree when the project path still exists. -/
def cleanupDir (fs : FS) (p : Path) : FS :=
  if fs.pathExists p then fs.rmtree p else fs

/-- Method `create_additional_files` (lines 229–336): the `web`/`cli`
starter file, then the pre-commit configuration — copied when a
`.pre-commit-config.yaml` exists next to the tool (`preCommitSrc` holds its
content), else synthesized. `none` models an exception escaping to
`create_project`'s generic handler (for example, the starter-file write when
no `src/<project_name>` directory exists). -/
def create_additional_files (preCommitSrc : Option String) (fs : FS)
    (project_path : Path) (template project_name : String) : Option FS :=
  let afterStarter : Option FS :=
    if template = "web" then
      fs.writeFile (project_path ++ ["src", project_name, "main.py"]) web_main_content
    else if template = "cli" then
      fs.writeFile (project_path ++ ["src", project_name, "cli.py"]) cli_main_content
    else some fs
  match afterStarter with
  | none => none
  | some fs1 =>
    match preCommitSrc with
    | some content =>
      fs1.writeFile (project_path ++ [".pre-commit-config.yaml"]) content
    | none =>
      fs1.writeFile (project_path ++ [".pre-commit-config.yaml"]) default_pre_commit_content

/-- Method `create_project` (lines 146–227). `uv` is the external
`uv init <path>` invocation: its exit status and its filesystem effect. The
steps mirror the source: resolve author defaults and the target path; refuse
an existing target; create the directory tree; run the bootstrap command
(the `CalledProcessError` handler catches a failing exit); load the template
(error report with the available names, and unconditional `rmtree`, when it
is missing); render it; write `pyproject.toml`; create the additional files.
An exception in the later steps lands in the generic handler
(`CreateError.unexpected`) with the guarded rollback. -/
def create_project (store : Store) (env_user : Option String) (uv : FS → Bool × FS)
    (preCommitSrc : Option String) (fs : FS) (cwd : Path)
    (project_name template : String) (target_dir : Option Path)
    (author_name author_email : Option String) : CPOut :=
  let an := resolve_author_name env_user author_name
  let ae := resolve_author_email an author_email
  let project_path := resolveTarget cwd project_name target_dir
  if fs.pathExists project_path then
    ⟨.error .alreadyExists, fs, false⟩
  else
    let fs1 := fs.mkdirParents project_path
    match uv fs1 with
    | (false, fs2) =>
      ⟨.error .bootstrapFailed, cleanupDir fs2 project_path, true⟩
    | (true, fs2) =>
      match lookupTemplate store template with
      | none =>
        ⟨.error (.templateNotFound (list_templates store)), fs2.rmtree project_path, true⟩
      | some template_content =>
        match render template_content project_name an ae with
        | .error _ => ⟨.error .unexpected, cleanupDir fs2 project_path, true⟩
        | .ok rendered =>
          match fs2.writeFile (project_path ++ ["pyproject.toml"]) rendered with
          | none => ⟨.error .unexpected, cleanupDir fs2 project_path, true⟩
          | some fs3 =>
            match create_additional_files preCommitSrc fs3 project_path template project_name with
            | none => ⟨.error .unexpected, cleanupDir fs3 project_path, true⟩
            | some fs4 => ⟨.ok (), fs4, true⟩

end UVCreate

namespace UVCreate

/-! Helper lemmas about the renderer. -/

theorem data_append (s t : String) : (s ++ t).data = s.data ++ t.data := rfl

theorem mk_data (s : String) : String.mk s.data = s := rfl

theorem except_map_map {ε α β γ : Type} (f : α → β) (g : β → γ) (x : Except ε α) :
    (x.map f).map g = x.map (fun a => g (f a)) := by
  cases x <;> rfl

/-- A character that is not a brace passes through unchanged. -/
theorem renderChars_plain_cons (pn an ae : String) (c : Char) (l : List Char)
    (h1 : ¬ c = '{') (h2 : ¬ c = '}') :
    renderChars pn an ae none (c :: l)
      = (renderChars pn an ae none l).map (fun t => c :: t) := by
  rw [renderChars.eq_def]
  simp [h1, h2]

/-- Brace-free text passes through unchanged, prefixing the rendering of the
remainder. -/
theorem renderChars_append_plain (pn an ae : String) (l1 l2 : List Char)
    (h : l1.all (fun c => !(c == '\x7b') && !(c == '\x7d')) = true) :
    renderChars pn an ae none (l1 ++ l2)
      = (renderChars pn an ae none l2).map (fun t => l1 ++ t) := by
  induction l1 with
  | nil =>
    rw [List.nil_append]
    cases hr : renderChars pn an ae none l2 <;> simp [Except.map, hr]
  | cons c cs ih =>
    simp only [List.all_cons, Bool.and_eq_true, Bool.not_eq_true'] at h
    obtain ⟨⟨h1, h2⟩, h3⟩ := h
    rw [List.cons_append,
      renderChars_plain_cons pn an ae c (cs ++ l2) (by simpa using h1) (by simpa using h2),
      ih (by simpa using h3), except_map_map]
    rfl

/-- A doubled opening brace renders as a single literal opening brace. -/
theorem renderChars_lbrace (pn an ae : String) (rest : List Char) :
    renderChars pn an ae none ('\x7b' :: '\x7b' :: rest)
      = (renderChars pn an ae none rest).map (fun t => '\x7b' :: t) := by
  rw [renderChars.eq_def]
  simp

/-- A doubled closing brace renders as a single literal closing brace. -/
theorem renderChars_rbrace (pn an ae : String) (rest : List Char) :
    renderChars pn an ae none ('\x7d' :: '\x7d' :: rest)
      = (renderChars pn an ae none rest).map (fun t => '\x7d' :: t) := by
  rw [renderChars.eq_def]
  simp

/-- Inside an open field, brace-free text accumulates until the closing
brace, where the collected name is looked up. -/
theorem renderChars_inField (pn an ae : String) (mid : List Char)
    (hmid : mid.all (fun c => !(c == '\x7b') && !(c == '\x7d')) = true) :
    ∀ acc rest, renderChars pn an ae (some acc) (mid ++ '\x7d' :: rest)
      = (match fieldValue pn an ae (String.mk (acc.reverse ++ mid)) with
         | none => .error (.keyError (String.mk (acc.reverse ++ mid)))
         | some v => (renderChars pn an ae none rest).map (fun t => v.data ++ t)) := by
  induction mid with
  | nil =>
    intro acc rest
    rw [List.nil_append, renderChars.eq_def]
    simp
  | cons m ms ih =>
    intro acc rest
    simp only [List.all_cons, Bool.and_eq_true, Bool.not_eq_true'] at hmid
    obtain ⟨⟨h1, h2⟩, h3⟩ := hmid
    have h1' : ¬ m = '\x7b' := by simpa using h1
    have h2' : ¬ m = '\x7d' := by simpa using h2
    rw [List.cons_append, renderChars.eq_def]
    simp only [h1', h2', if_false, ite_false, if_neg]
    rw [ih (by simpa using h3) (m :: acc) rest]
    simp [List.reverse_cons, List.append_assoc]

/-- A recognized field between single braces renders as its value. -/
theorem renderChars_marker (pn an ae v : String) (nm rest : List Char)
    (hnm : nm.all (fun c => !(c == '\x7b') && !(c == '\x7d')) = true)
    (hne : nm ≠ [])
    (hv : fieldValue pn an ae (String.mk nm) = some v) :
    renderChars pn an ae none ('\x7b' :: (nm ++ '\x7d' :: rest))
      = (renderChars pn an ae none rest).map (fun t => v.data ++ t) := by
  cases nm with
  | nil => exact absurd rfl hne
  | cons c1 nm' =>
    simp only [List.all_cons, Bool.and_eq_true, Bool.not_eq_true'] at hnm
    obtain ⟨⟨h1, h2⟩, h3⟩ := hnm
    have h1' : ¬ c1 = '\x7b' := by simpa using h1
    have h2' : ¬ c1 = '\x7d' := by simpa using h2
    rw [List.cons_append, renderChars.eq_def]
    simp only [h1', h2', if_false, ite_false, if_neg, reduceIte]
    rw [renderChars_inField pn an ae nm' (by simpa using h3) [c1] rest]
    simp only [List.reverse_singleton, List.singleton_append]
    rw [hv]

end UVCreate

namespace UVCreate

/-- Brace-free text renders to itself. -/
theorem renderChars_all_plain (pn an ae : String) (l : List Char)
    (h : l.all (fun c => !(c == '\x7b') && !(c == '\x7d')) = true) :
    renderChars pn an ae none l = .ok l := by
  have h2 := renderChars_append_plain pn an ae l [] h
  rw [List.append_nil] at h2
  simpa [Except.map, renderChars] using h2

/-- The basic template with its three markers substituted and its brace
escapes collapsed: the manifest text the `format` call produces. -/
def basicFilled (pn an ae : String) : String :=
  basicSeg0 ++ pn ++ basicSeg1 ++ "\x7b" ++ basicSeg2 ++ an ++ basicSeg3
    ++ ae ++ basicSeg4 ++ "\x7d" ++ basicSeg5

/-- The `project_name` field between single braces renders as `pn`. -/
theorem renderChars_pn_marker (pn an ae : String) (rest : List Char) :
    renderChars pn an ae none
        ('\x7b' :: 'p' :: 'r' :: 'o' :: 'j' :: 'e' :: 'c' :: 't' :: '_' :: 'n' :: 'a' :: 'm' :: 'e' :: '\x7d' :: rest)
      = (renderChars pn an ae none rest).map (fun t => pn.data ++ t) := by
  have h := renderChars_marker pn an ae pn
    ['p', 'r', 'o', 'j', 'e', 'c', 't', '_', 'n', 'a', 'm', 'e'] rest
    (by decide) (by decide) rfl
  simpa using h

/-- The `author_name` field between single braces renders as `an`. -/
theorem renderChars_an_marker (pn an ae : String) (rest : List Char) :
    renderChars pn an ae none
        ('\x7b' :: 'a' :: 'u' :: 't' :: 'h' :: 'o' :: 'r' :: '_' :: 'n' :: 'a' :: 'm' :: 'e' :: '\x7d' :: rest)
      = (renderChars pn an ae none rest).map (fun t => an.data ++ t) := by
  have h := renderChars_marker pn an ae an
    ['a', 'u', 't', 'h', 'o', 'r', '_', 'n', 'a', 'm', 'e'] rest
    (by decide) (by decide) rfl
  simpa using h

/-- The `author_email` field between single braces renders as `ae`. -/
theorem renderChars_ae_marker (pn an ae : String) (rest : List Char) :
    renderChars pn an ae none
        ('\x7b' :: 'a' :: 'u' :: 't' :: 'h' :: 'o' :: 'r' :: '_' :: 'e' :: 'm' :: 'a' :: 'i' :: 'l' :: '\x7d' :: rest)
      = (renderChars pn an ae none rest).map (fun t => ae.data ++ t) := by
  have h := renderChars_marker pn an ae ae
    ['a', 'u', 't', 'h', 'o', 'r', '_', 'e', 'm', 'a', 'i', 'l'] rest
    (by decide) (by decide) rfl
  simpa using h

/-- Rendering the canonical basic template substitutes exactly the three
markers and collapses the two escape sequences, whatever the three values
are. -/
theorem render_get_basic_template (pn an ae : String) :
    render get_basic_template pn an ae = .ok (basicFilled pn an ae) := by
  have hall0 : basicSeg0.data.all (fun c => !(c == '\x7b') && !(c == '\x7d')) = true := by decide
  have hall1 : basicSeg1.data.all (fun c => !(c == '\x7b') && !(c == '\x7d')) = true := by decide
  have hall2 : basicSeg2.data.all (fun c => !(c == '\x7b') && !(c == '\x7d')) = true := by decide
  have hall3 : basicSeg3.data.all (fun c => !(c == '\x7b') && !(c == '\x7d')) = true := by decide
  have hall4 : basicSeg4.data.all (fun c => !(c == '\x7b') && !(c == '\x7d')) = true := by decide
  have hall5 : basicSeg5.data.all (fun c => !(c == '\x7b') && !(c == '\x7d')) = true := by decide
  unfold render get_basic_template
  simp only [data_append, List.append_assoc, List.cons_append, List.nil_append,
    List.singleton_append]
  rw [renderChars_append_plain pn an ae basicSeg0.data _ hall0,
      renderChars_pn_marker,
      renderChars_append_plain pn an ae basicSeg1.data _ hall1,
      renderChars_lbrace,
      renderChars_append_plain pn an ae basicSeg2.data _ hall2,
      renderChars_an_marker,
      renderChars_append_plain pn an ae basicSeg3.data _ hall3,
      renderChars_ae_marker,
      renderChars_append_plain pn an ae basicSeg4.data _ hall4,
      renderChars_rbrace,
      renderChars_all_plain pn an ae basicSeg5.data hall5]
  simp only [Except.map, except_map_map]
  rw [show basicFilled pn an ae = String.mk (basicFilled pn an ae).data from rfl]
  simp [basicFilled, data_append, List.append_assoc]

end UVCreate

namespace UVCreate

/-! Helper lemmas about the filesystem and the template store. -/

theorem pathLe_refl (p : Path) : pathLe p p = true := by
  induction p with
  | nil => rfl
  | cons a p ih => simp [pathLe, ih]

theorem any_filter_none {α : Type} (l : List α) (f g : α → Bool)
    (h : ∀ x, g x = true → f x = false) : (l.filter f).any g = false := by
  induction l with
  | nil => rfl
  | cons x xs ih =>
    cases hf : f x
    · rw [List.filter_cons_of_neg (by simp [hf])]
      exact ih
    · rw [List.filter_cons_of_pos hf, List.any_cons]
      have hg : g x = false := by
        cases hgx : g x
        · rfl
        · exact absurd (h x hgx) (by simp [hf])
      simp [hg, ih]

/-- After `rmtree p`, nothing exists at `p`. -/
theorem pathExists_rmtree_self (fs : FS) (p : Path) :
    (fs.rmtree p).pathExists p = false := by
  unfold FS.rmtree FS.pathExists FS.isDir FS.isFile
  rw [any_filter_none _ _ _ (fun d hd => by
        have : d = p := by simpa using hd
        simp [this, pathLe_refl]),
      any_filter_none _ _ _ (fun f hf => by
        have : f.1 = p := by simpa using hf
        simp [this, pathLe_refl])]
  rfl

/-- After the guarded rollback, nothing exists at `p`. -/
theorem pathExists_cleanupDir (fs : FS) (p : Path) :
    (cleanupDir fs p).pathExists p = false := by
  unfold cleanupDir
  cases h : fs.pathExists p
  · simp [h]
  · simp [h, pathExists_rmtree_self]

theorem writeFile_eq (fs : FS) (p : Path) (c : String) (fs' : FS)
    (h : fs.writeFile p c = some fs') :
    fs'.dirs = fs.dirs ∧ fs'.files = (p, c) :: fs.files.filter (fun f => !(f.1 == p)) := by
  unfold FS.writeFile at h
  split at h
  · simp only [Option.some.injEq] at h
    subst h
    exact ⟨rfl, rfl⟩
  · exact absurd h (by simp)

/-- A successful write stores the content at the path. -/
theorem fileContent_writeFile_self (fs : FS) (p : Path) (c : String) (fs' : FS)
    (h : fs.writeFile p c = some fs') : fs'.fileContent p = some c := by
  obtain ⟨-, hf⟩ := writeFile_eq fs p c fs' h
  unfold FS.fileContent
  rw [hf, List.find?_cons_of_pos _ (by simp)]
  rfl

theorem find?_filter_subsume {α : Type} (l : List α) (f g : α → Bool)
    (h : ∀ x, g x = true → f x = true) :
    (l.filter f).find? g = l.find? g := by
  induction l with
  | nil => rfl
  | cons x xs ih =>
    cases hg : g x
    · cases hf : f x
      · rw [List.filter_cons_of_neg (by simp [hf]), ih,
          List.find?_cons_of_neg _ (by simp [hg])]
      · rw [List.filter_cons_of_pos hf, List.find?_cons_of_neg _ (by simp [hg]),
          List.find?_cons_of_neg _ (by simp [hg]), ih]
    · rw [List.filter_cons_of_pos (h x hg), List.find?_cons_of_pos _ hg,
        List.find?_cons_of_pos _ hg]

/-- A successful write leaves every other file unchanged. -/
theorem fileContent_writeFile_ne (fs : FS) (p q : Path) (c : String) (fs' : FS)
    (h : fs.writeFile p c = some fs') (hne : ¬ q = p) :
    fs'.fileContent q = fs.fileContent q := by
  obtain ⟨-, hf⟩ := writeFile_eq fs p c fs' h
  unfold FS.fileContent
  have hpq : ¬ ((p, c).1 == q) = true := by
    simp only [beq_iff_eq]
    exact fun h' => hne h'.symm
  have hstep : List.find? (fun f => f.1 == q)
        ((p, c) :: List.filter (fun f => !(f.1 == p)) fs.files)
      = List.find? (fun f => f.1 == q) (List.filter (fun f => !(f.1 == p)) fs.files) :=
    List.find?_cons_of_neg _ hpq
  rw [hf, hstep, find?_filter_subsume]
  intro x hx
  have hq : x.1 = q := by simpa using hx
  simp [hq, hne]

theorem find?_append_none {α : Type} (l1 l2 : List α) (p : α → Bool)
    (h : l1.find? p = none) : (l1 ++ l2).find? p = l2.find? p := by
  induction l1 with
  | nil => rfl
  | cons x xs ih =>
    cases hx : p x
    · rw [List.find?_cons_of_neg _ (by simp [hx])] at h
      rw [List.cons_append, List.find?_cons_of_neg _ (by simp [hx])]
      exact ih h
    · rw [List.find?_cons_of_pos _ hx] at h
      exact absurd h (by simp)

/-- Writing a template makes it the one the store returns for its name. -/
theorem lookupTemplate_writeTemplate_self (store : Store) (k v : String) :
    lookupTemplate (writeTemplate store k v) k = some v := by
  unfold writeTemplate lookupTemplate
  cases ha : store.any (fun t => t.1 == k)
  · rw [if_neg (by simp [ha])]
    rw [find?_append_none _ _ _ (List.find?_eq_none.mpr (by
      intro x hx
      have := (List.any_eq_false.mp ha) x hx
      simpa using this))]
    simp
  · rw [if_pos (by simp [ha])]
    induction store with
    | nil => simp at ha
    | cons t ts ih =>
      cases ht : (t.1 == k)
      · rw [List.map_cons, if_neg (by simp [ht]), List.find?_cons_of_neg _ (by simp [ht])]
        rw [List.any_cons, ht, Bool.false_or] at ha
        exact ih ha
      · rw [List.map_cons, if_pos (by simpa using ht), List.find?_cons_of_pos _ (by simp)]
        rfl

end UVCreate

namespace UVCreate

/-- C2: when the target path already exists at call time, `create_project`
fails with the already-exists error, returns the filesystem exactly as it
was (no directory created, nothing touched), and never invokes the external
bootstrap command. -/
theorem create_project_already_exists (store : Store) (env_user : Option String)
    (uv : FS → Bool × FS) (preCommitSrc : Option String) (fs : FS) (cwd : Path)
    (project_name template : String) (target_dir : Option Path)
    (author_name author_email : Option String)
    (h : fs.pathExists (resolveTarget cwd project_name target_dir) = true) :
    create_project store env_user uv preCommitSrc fs cwd project_name template
        target_dir author_name author_email
      = ⟨.error .alreadyExists, fs, false⟩ := by
  simp only [create_project]
  rw [if_pos h]

/-- C2 witness: creating `demo` while the directory `demo` exists fails
with the already-exists error, mutates nothing and runs no command. -/
theorem create_project_already_exists_witness :
    create_project [("basic", get_basic_template)] (some "u") (fun s => (true, s)) none
        ⟨[["demo"]], []⟩ [] "demo" "basic" none none none
      = ⟨.error .alreadyExists, ⟨[["demo"]], []⟩, false⟩ :=
  create_project_already_exists [("basic", get_basic_template)] (some "u")
    (fun s => (true, s)) none ⟨[["demo"]], []⟩ [] "demo" "basic" none none none (by decide)

/-- C9: passing the empty string for the author name and email is
indistinguishable from omitting them — the whole run returns the same
outcome, with the same defaulted values in effect. -/
theorem create_project_empty_author_args (store : Store) (env_user : Option String)
    (uv : FS → Bool × FS) (preCommitSrc : Option String) (fs : FS) (cwd : Path)
    (project_name template : String) (target_dir : Option Path)
    (author_email author_name : Option String) :
    (create_project store env_user uv preCommitSrc fs cwd project_name template
        target_dir (some "") author_email
      = create_project store env_user uv preCommitSrc fs cwd project_name template
        target_dir none author_email)
    ∧ (create_project store env_user uv preCommitSrc fs cwd project_name template
        target_dir author_name (some "")
      = create_project store env_user uv preCommitSrc fs cwd project_name template
        target_dir author_name none) := by
  constructor <;> rfl

/-- C10: a reset request for a name that is not a built-in default returns
the unknown-template report and the store exactly as it was — nothing is
created, overwritten or deleted. -/
theorem reset_unknown_template_no_change (store : Store) (name : String)
    (h1 : ¬ name = "all") (h2 : lookupTemplate default_templates name = none) :
    reset_default_template store name = (.unknownTemplate, store) := by
  unfold reset_default_template
  rw [if_neg h1, h2]

/-- C10 witness: resetting the non-built-in name `custom` leaves a concrete
store untouched. -/
theorem reset_unknown_template_no_change_witness :
    reset_default_template [("basic", "junk"), ("custom", "body")] "custom"
      = (.unknownTemplate, [("basic", "junk"), ("custom", "body")]) :=
  reset_unknown_template_no_change [("basic", "junk"), ("custom", "body")] "custom"
    (by decide) (by decide)

/-- C6: resetting a built-in name restores its canonical body whatever the
store held before; resetting `all` restores every built-in name; any name
that is neither `all` nor a built-in default is rejected with the
unknown-template report. -/
theorem reset_default_template_spec (store : Store) :
    (∀ nc, nc ∈ default_templates →
        lookupTemplate (reset_default_template store nc.1).2 nc.1 = some nc.2
        ∧ lookupTemplate (reset_default_template store "all").2 nc.1 = some nc.2)
    ∧ (∀ name, ¬ name = "all" → lookupTemplate default_templates name = none →
        (reset_default_template store name).1 = .unknownTemplate) := by
  constructor
  · intro nc hnc
    have hb : nc = ("basic", get_basic_template) := by
      simpa [default_templates] using hnc
    subst hb
    constructor
    · show lookupTemplate (reset_default_template store "basic").2 "basic"
        = some get_basic_template
      unfold reset_default_template
      rw [if_neg (by decide)]
      rw [show lookupTemplate default_templates "basic" = some get_basic_template from rfl]
      exact lookupTemplate_writeTemplate_self store "basic" get_basic_template
    · show lookupTemplate (reset_default_template store "all").2 "basic"
        = some get_basic_template
      unfold reset_default_template
      rw [if_pos rfl]
      show lookupTemplate (writeTemplate store "basic" get_basic_template) "basic" = _
      exact lookupTemplate_writeTemplate_self store "basic" get_basic_template
  · intro name h1 h2
    unfold reset_default_template
    rw [if_neg h1, h2]

/-- C6 witness: on a store whose `basic` entry was overwritten, `reset`
of `basic` and of `all` both restore the canonical body, and a non-built-in
name is rejected. -/
theorem reset_default_template_spec_witness :
    lookupTemplate (reset_default_template [("basic", "junk"), ("x", "y")] "basic").2 "basic"
        = some get_basic_template
    ∧ lookupTemplate (reset_default_template [("basic", "junk"), ("x", "y")] "all").2 "basic"
        = some get_basic_template
    ∧ (reset_default_template [("basic", "junk"), ("x", "y")] "mytpl").1 = .unknownTemplate :=
  ⟨((reset_default_template_spec [("basic", "junk"), ("x", "y")]).1
      ("basic", get_basic_template) (by simp [default_templates])).1,
   ((reset_default_template_spec [("basic", "junk"), ("x", "y")]).1
      ("basic", get_basic_template) (by simp [default_templates])).2,
   (reset_default_template_spec [("basic", "junk"), ("x", "y")]).2 "mytpl"
      (by decide) (by decide)⟩

end UVCreate

namespace UVCreate

/-- C3: when the named template has no file in the store (the bootstrap
command itself having succeeded), `create_project` fails with the
template-not-found report carrying the current list of template names, and
the project directory it created is removed — nothing remains at the
target path. -/
theorem create_project_template_not_found (store : Store) (env_user : Option String)
    (uv : FS → Bool × FS) (preCommitSrc : Option String) (fs : FS) (cwd : Path)
    (project_name template : String) (target_dir : Option Path)
    (author_name author_email : Option String)
    (hfree : fs.pathExists (resolveTarget cwd project_name target_dir) = false)
    (huv : (uv (fs.mkdirParents (resolveTarget cwd project_name target_dir))).1 = true)
    (hmiss : lookupTemplate store template = none) :
    (create_project store env_user uv preCommitSrc fs cwd project_name template
        target_dir author_name author_email).result
      = .error (.templateNotFound (list_templates store))
    ∧ (create_project store env_user uv preCommitSrc fs cwd project_name template
        target_dir author_name author_email).fs.pathExists
        (resolveTarget cwd project_name target_dir) = false := by
  rcases h2 : uv (fs.mkdirParents (resolveTarget cwd project_name target_dir)) with ⟨b, fs2⟩
  rw [h2] at huv
  simp only at huv
  subst huv
  simp only [create_project, hfree]
  rw [h2, hmiss]
  exact ⟨rfl, pathExists_rmtree_self fs2 _⟩

/-- C3 witness: creating `x` from the missing template name
`missing-template` over a store holding only `basic` fails with the
template-not-found report listing `basic`, and leaves nothing at `x`. -/
theorem create_project_template_not_found_witness :
    (create_project [("basic", "b")] (some "u") (fun s => (true, s)) none ⟨[], []⟩ []
        "x" "missing-template" none none none).result
      = .error (.templateNotFound ["basic"])
    ∧ (create_project [("basic", "b")] (some "u") (fun s => (true, s)) none ⟨[], []⟩ []
        "x" "missing-template" none none none).fs.pathExists
        (resolveTarget [] "x" none) = false := by
  have h := create_project_template_not_found [("basic", "b")] (some "u")
      (fun s => (true, s)) none ⟨[], []⟩ [] "x" "missing-template" none none none
      (by decide) (by decide) (by decide)
  exact ⟨h.1, h.2⟩

/-- C7: with the target free at the pre-check, a failing bootstrap command
makes `create_project` fail with the bootstrap-failure error; and after
every failure other than the pre-check one, nothing remains at the target
path — the rollback ran on every post-creation failure path. -/
theorem create_project_bootstrap_failure_rollback (store : Store) (env_user : Option String)
    (uv : FS → Bool × FS) (preCommitSrc : Option String) (fs : FS) (cwd : Path)
    (project_name template : String) (target_dir : Option Path)
    (author_name author_email : Option String)
    (hfree : fs.pathExists (resolveTarget cwd project_name target_dir) = false) :
    ((uv (fs.mkdirParents (resolveTarget cwd project_name target_dir))).1 = false →
      (create_project store env_user uv preCommitSrc fs cwd project_name template
          target_dir author_name author_email).result = .error .bootstrapFailed)
    ∧ (∀ e, (create_project store env_user uv preCommitSrc fs cwd project_name template
          target_dir author_name author_email).result = .error e →
        ¬ e = .alreadyExists →
        (create_project store env_user uv preCommitSrc fs cwd project_name template
          target_dir author_name author_email).fs.pathExists
          (resolveTarget cwd project_name target_dir) = false) := by
  rcases h2 : uv (fs.mkdirParents (resolveTarget cwd project_name target_dir)) with ⟨b, fs2⟩
  constructor
  · intro hb
    have hb' : b = false := hb
    subst hb'
    simp only [create_project, hfree]
    rw [h2]
    rfl
  · intro e he hne
    simp only [create_project, hfree] at he ⊢
    rw [h2] at he ⊢
    cases b
    · exact pathExists_cleanupDir fs2 _
    · dsimp only at he ⊢
      cases h3 : lookupTemplate store template
      · rw [h3] at he
        exact pathExists_rmtree_self fs2 _
      · rename_i tc
        rw [h3] at he
        dsimp only at he ⊢
        cases h4 : render tc project_name (resolve_author_name env_user author_name)
            (resolve_author_email (resolve_author_name env_user author_name) author_email)
        · rw [h4] at he
          exact pathExists_cleanupDir fs2 _
        · rename_i rendered
          rw [h4] at he
          dsimp only at he ⊢
          cases h5 : fs2.writeFile
              (resolveTarget cwd project_name target_dir ++ ["pyproject.toml"]) rendered
          · rw [h5] at he
            exact pathExists_cleanupDir fs2 _
          · rename_i fs3
            rw [h5] at he
            dsimp only at he ⊢
            cases h6 : create_additional_files preCommitSrc fs3
                (resolveTarget cwd project_name target_dir) template project_name
            · rw [h6] at he
              exact pathExists_cleanupDir fs3 _
            · rename_i fs4
              rw [h6] at he
              dsimp only at he
              exact absurd he (by simp)

/-- C7 witness: a failing bootstrap command on a fresh target yields the
bootstrap-failure error, and the concrete rollback leaves nothing at the
target. -/
theorem create_project_bootstrap_failure_rollback_witness :
    (create_project [("basic", "b")] (some "u") (fun s => (false, s)) none ⟨[], []⟩ []
        "demo" "basic" none none none).result = .error .bootstrapFailed
    ∧ (create_project [("basic", "b")] (some "u") (fun s => (false, s)) none ⟨[], []⟩ []
        "demo" "basic" none none none).fs.pathExists (resolveTarget [] "demo" none) = false := by
  have h := create_project_bootstrap_failure_rollback [("basic", "b")] (some "u")
      (fun s => (false, s)) none ⟨[], []⟩ [] "demo" "basic" none none none (by decide)
  exact ⟨h.1 (by decide), h.2 .bootstrapFailed (h.1 (by decide)) (by decide)⟩

end UVCreate

namespace UVCreate

/-- First character match of `pat` against `l`. -/
def startsWithChars : List Char → List Char → Bool
  | [], _ => true
  | _ :: _, [] => false
  | a :: pa, b :: lb => a == b && startsWithChars pa lb

/-- Substring test at the character level. -/
def containsChars (pat : List Char) : List Char → Bool
  | [] => startsWithChars pat []
  | l@(_ :: rest) => startsWithChars pat l || containsChars pat rest

/-- Whether `s` contains one of the three recognized placeholder markers as
a substring. -/
def hasRecognizedMarker (s : String) : Bool :=
  containsChars ("\x7bproject_name\x7d").data s.data
  || containsChars ("\x7bauthor_name\x7d").data s.data
  || containsChars ("\x7bauthor_email\x7d").data s.data

/-- C1 counterexample: a template whose only placeholder (`today`) is not
one of the three recognized names is not left verbatim in any output —
rendering raises the unknown-key error, and `create_project` fails with the
generic creation error and removes the project directory, leaving the
filesystem empty. -/
theorem unknown_placeholder_counterexample :
    render "date = \x7btoday\x7d" "proj" "Dev" "dev@example.com"
        = .error (.keyError "today")
    ∧ (create_project [("t", "date = \x7btoday\x7d")] (some "Dev") (fun s => (true, s))
        none ⟨[], []⟩ [] "proj" "t" none none none).result = .error .unexpected
    ∧ (create_project [("t", "date = \x7btoday\x7d")] (some "Dev") (fun s => (true, s))
        none ⟨[], []⟩ [] "proj" "t" none none none).fs = ⟨[], []⟩ :=
  ⟨by decide, by decide, by decide⟩

/-- C1 amended: a template body whose rendering raises (as any unrecognized
placeholder makes it do) causes `create_project` to fail with the generic
creation error and to remove the created directory — the placeholder is
neither left verbatim nor written anywhere. -/
theorem unknown_placeholder_fails_run (store : Store) (env_user : Option String)
    (uv : FS → Bool × FS) (preCommitSrc : Option String) (fs : FS) (cwd : Path)
    (project_name template : String) (target_dir : Option Path)
    (author_name author_email : Option String) (body : String) (err : RenderError)
    (hfree : fs.pathExists (resolveTarget cwd project_name target_dir) = false)
    (huv : (uv (fs.mkdirParents (resolveTarget cwd project_name target_dir))).1 = true)
    (hbody : lookupTemplate store template = some body)
    (hrender : render body project_name (resolve_author_name env_user author_name)
        (resolve_author_email (resolve_author_name env_user author_name) author_email)
      = .error err) :
    (create_project store env_user uv preCommitSrc fs cwd project_name template
        target_dir author_name author_email).result = .error .unexpected
    ∧ (create_project store env_user uv preCommitSrc fs cwd project_name template
        target_dir author_name author_email).fs.pathExists
        (resolveTarget cwd project_name target_dir) = false := by
  rcases h2 : uv (fs.mkdirParents (resolveTarget cwd project_name target_dir)) with ⟨b, fs2⟩
  rw [h2] at huv
  have hb : b = true := huv
  subst hb
  simp only [create_project, hfree]
  rw [h2]
  dsimp only
  rw [hbody]
  dsimp only
  rw [hrender]
  exact ⟨rfl, pathExists_cleanupDir fs2 _⟩

/-- C1 amended witness: the concrete unknown-placeholder template makes a
concrete run fail and leaves nothing at the target. -/
theorem unknown_placeholder_fails_run_witness :
    (create_project [("t", "date = \x7btoday\x7d")] (some "Dev") (fun s => (true, s))
        none ⟨[], []⟩ [] "proj" "t" none none none).result = .error .unexpected
    ∧ (create_project [("t", "date = \x7btoday\x7d")] (some "Dev") (fun s => (true, s))
        none ⟨[], []⟩ [] "proj" "t" none none none).fs.pathExists
        (resolveTarget [] "proj" none) = false := by
  have h := unknown_placeholder_fails_run [("t", "date = \x7btoday\x7d")] (some "Dev")
      (fun s => (true, s)) none ⟨[], []⟩ [] "proj" "t" none none none
      "date = \x7btoday\x7d" (.keyError "today")
      (by decide) (by decide) (by decide) (by decide)
  exact ⟨h.1, h.2⟩

/-- C4 counterexample: the body consisting of a doubled opening brace
contains none of the three recognized markers, yet rendering alters it to a
single opening brace instead of returning it unchanged. -/
theorem render_not_identity_counterexample :
    hasRecognizedMarker "\x7b\x7b" = false
    ∧ render "\x7b\x7b" "p" "a" "e" = .ok "\x7b"
    ∧ ¬ render "\x7b\x7b" "p" "a" "e" = .ok "\x7b\x7b" :=
  ⟨by decide, by decide, by decide⟩

/-- C4 amended: rendering is the identity exactly on bodies free of brace
characters (such bodies in particular contain no recognized marker); bodies
that contain braces can be altered — escapes collapse — or rejected even
when no recognized marker occurs in them. -/
theorem render_identity_on_brace_free (body pn an ae : String)
    (h : body.data.all (fun c => !(c == '\x7b') && !(c == '\x7d')) = true) :
    render body pn an ae = .ok body := by
  unfold render
  rw [renderChars_all_plain pn an ae body.data h]
  rfl

/-- C4 amended witness: a concrete brace-free body renders to itself. -/
theorem render_identity_on_brace_free_witness :
    render "name = demo\nversion = 0.1.0\n" "p" "a" "e"
      = .ok "name = demo\nversion = 0.1.0\n" :=
  render_identity_on_brace_free "name = demo\nversion = 0.1.0\n" "p" "a" "e" (by decide)

end UVCreate

namespace UVCreate

/-- Shape of a fully successful `create_project` run, phrased with one
hypothesis per step so that no proof ever has to evaluate the renderer on a
large template. -/
theorem create_project_success_shape (store : Store) (env_user : Option String)
    (uv : FS → Bool × FS) (preCommitSrc : Option String) (fs : FS) (cwd : Path)
    (project_name template : String) (target_dir : Option Path)
    (author_name author_email : Option String)
    (fs2 fs3 fs4 : FS) (body rendered : String)
    (hfree : fs.pathExists (resolveTarget cwd project_name target_dir) = false)
    (h2 : uv (fs.mkdirParents (resolveTarget cwd project_name target_dir)) = (true, fs2))
    (h3 : lookupTemplate store template = some body)
    (h4 : render body project_name (resolve_author_name env_user author_name)
        (resolve_author_email (resolve_author_name env_user author_name) author_email)
      = .ok rendered)
    (h5 : fs2.writeFile (resolveTarget cwd project_name target_dir ++ ["pyproject.toml"])
        rendered = some fs3)
    (h6 : create_additional_files preCommitSrc fs3 (resolveTarget cwd project_name target_dir)
        template project_name = some fs4) :
    create_project store env_user uv preCommitSrc fs cwd project_name template
        target_dir author_name author_email = ⟨.ok (), fs4, true⟩ := by
  simp only [create_project, hfree]
  rw [h2]
  dsimp only
  rw [h3]
  dsimp only
  rw [h4]
  dsimp only
  rw [h5]
  dsimp only
  rw [h6]
  rfl

/-- C5: with no author arguments, the author name falls back to the USER
environment value, the author email to the lower-cased author name with
spaces replaced by dots followed by the fixed example domain, and the
manifest written for the basic template is exactly the template with its
three markers replaced by those values and the literal project name. -/
theorem create_project_default_authors (u : String) :
    resolve_author_name (some u) none = u
    ∧ (∀ a, resolve_author_email a none = dotSpaces (pyLower a) ++ "@example.com")
    ∧ (create_project [("basic", get_basic_template)] (some u) (fun s => (true, s))
        none ⟨[], []⟩ [] "myapp" "basic" none none none).result = .ok ()
    ∧ (create_project [("basic", get_basic_template)] (some u) (fun s => (true, s))
        none ⟨[], []⟩ [] "myapp" "basic" none none none).fs.fileContent
        ["myapp", "pyproject.toml"]
      = some (basicFilled "myapp" u (dotSpaces (pyLower u) ++ "@example.com")) := by
  have h4 := render_get_basic_template "myapp" (resolve_author_name (some u) none)
      (resolve_author_email (resolve_author_name (some u) none) none)
  have hrun := create_project_success_shape [("basic", get_basic_template)] (some u)
      (fun s => (true, s)) none ⟨[], []⟩ [] "myapp" "basic" none none none
      ⟨[["myapp"]], []⟩
      ⟨[["myapp"]], [(["myapp", "pyproject.toml"],
        basicFilled "myapp" (resolve_author_name (some u) none)
          (resolve_author_email (resolve_author_name (some u) none) none))]⟩
      ⟨[["myapp"]], [(["myapp", ".pre-commit-config.yaml"], default_pre_commit_content),
        (["myapp", "pyproject.toml"],
         basicFilled "myapp" (resolve_author_name (some u) none)
          (resolve_author_email (resolve_author_name (some u) none) none))]⟩
      get_basic_template
      (basicFilled "myapp" (resolve_author_name (some u) none)
        (resolve_author_email (resolve_author_name (some u) none) none))
      rfl rfl rfl h4 rfl rfl
  refine ⟨rfl, fun a => rfl, ?_, ?_⟩
  · rw [hrun]
  · rw [hrun]
    rfl

/-- A successful `create_additional_files` run for the `web` template has
written the starter `main.py` under `src/<project_name>`. -/
theorem create_additional_files_web (preCommitSrc : Option String) (fs : FS) (pp : Path)
    (pn : String) (fs' : FS)
    (h : create_additional_files preCommitSrc fs pp "web" pn = some fs') :
    fs'.fileContent (pp ++ ["src", pn, "main.py"]) = some web_main_content := by
  simp only [create_additional_files] at h
  rw [if_true] at h
  cases hw : fs.writeFile (pp ++ ["src", pn, "main.py"]) web_main_content
  · rw [hw] at h
    simp at h
  · rename_i fsA
    rw [hw] at h
    try dsimp only at h
    have hne : ¬ (pp ++ ["src", pn, "main.py"]) = (pp ++ [".pre-commit-config.yaml"]) := by
      intro heq
      have hlen := congrArg List.length heq
      simp at hlen
    cases preCommitSrc
    · try dsimp only at h
      rw [fileContent_writeFile_ne fsA (pp ++ [".pre-commit-config.yaml"])
          (pp ++ ["src", pn, "main.py"]) default_pre_commit_content fs' h hne]
      exact fileContent_writeFile_self fs (pp ++ ["src", pn, "main.py"]) web_main_content fsA hw
    · rename_i content
      try dsimp only at h
      rw [fileContent_writeFile_ne fsA (pp ++ [".pre-commit-config.yaml"])
          (pp ++ ["src", pn, "main.py"]) content fs' h hne]
      exact fileContent_writeFile_self fs (pp ++ ["src", pn, "main.py"]) web_main_content fsA hw

/-- A successful `create_additional_files` run for the `cli` template has
written the starter `cli.py` under `src/<project_name>`. -/
theorem create_additional_files_cli (preCommitSrc : Option String) (fs : FS) (pp : Path)
    (pn : String) (fs' : FS)
    (h : create_additional_files preCommitSrc fs pp "cli" pn = some fs') :
    fs'.fileContent (pp ++ ["src", pn, "cli.py"]) = some cli_main_content := by
  simp only [create_additional_files] at h
  rw [if_true] at h
  cases hw : fs.writeFile (pp ++ ["src", pn, "cli.py"]) cli_main_content
  · rw [hw] at h
    simp at h
  · rename_i fsA
    rw [hw] at h
    try dsimp only at h
    have hne : ¬ (pp ++ ["src", pn, "cli.py"]) = (pp ++ [".pre-commit-config.yaml"]) := by
      intro heq
      have hlen := congrArg List.length heq
      simp at hlen
    cases preCommitSrc
    · try dsimp only at h
      rw [fileContent_writeFile_ne fsA (pp ++ [".pre-commit-config.yaml"])
          (pp ++ ["src", pn, "cli.py"]) default_pre_commit_content fs' h hne]
      exact fileContent_writeFile_self fs (pp ++ ["src", pn, "cli.py"]) cli_main_content fsA hw
    · rename_i content
      try dsimp only at h
      rw [fileContent_writeFile_ne fsA (pp ++ [".pre-commit-config.yaml"])
          (pp ++ ["src", pn, "cli.py"]) content fs' h hne]
      exact fileContent_writeFile_self fs (pp ++ ["src", pn, "cli.py"]) cli_main_content fsA hw

/-- C8: every successful `create_project` run with the `web` template has,
besides the manifest, the starter source file at `src/<project_name>/main.py`
inside the project directory — and analogously `cli.py` for `cli`. -/
theorem create_project_starter_files (store : Store) (env_user : Option String)
    (uv : FS → Bool × FS) (preCommitSrc : Option String) (fs : FS) (cwd : Path)
    (project_name template : String) (target_dir : Option Path)
    (author_name author_email : Option String)
    (hok : (create_project store env_user uv preCommitSrc fs cwd project_name template
        target_dir author_name author_email).result = .ok ()) :
    (template = "web" →
      (create_project store env_user uv preCommitSrc fs cwd project_name template
          target_dir author_name author_email).fs.fileContent
        (resolveTarget cwd project_name target_dir ++ ["src", project_name, "main.py"])
        = some web_main_content)
    ∧ (template = "cli" →
      (create_project store env_user uv preCommitSrc fs cwd project_name template
          target_dir author_name author_email).fs.fileContent
        (resolveTarget cwd project_name target_dir ++ ["src", project_name, "cli.py"])
        = some cli_main_content) := by
  cases hpe : fs.pathExists (resolveTarget cwd project_name target_dir)
  case true =>
    simp [create_project, hpe] at hok
  case false =>
    rcases h2 : uv (fs.mkdirParents (resolveTarget cwd project_name target_dir)) with ⟨b, fs2⟩
    simp only [create_project, hpe] at hok ⊢
    rw [h2] at hok ⊢
    cases b
    · simp at hok
    · dsimp only at hok ⊢
      cases h3 : lookupTemplate store template
      · rw [h3] at hok
        simp at hok
      · rename_i tc
        rw [h3] at hok
        dsimp only at hok ⊢
        cases h4 : render tc project_name (resolve_author_name env_user author_name)
            (resolve_author_email (resolve_author_name env_user author_name) author_email)
        · rw [h4] at hok
          simp at hok
        · rename_i rendered
          rw [h4] at hok
          dsimp only at hok ⊢
          cases h5 : fs2.writeFile
              (resolveTarget cwd project_name target_dir ++ ["pyproject.toml"]) rendered
          · rw [h5] at hok
            simp at hok
          · rename_i fs3
            rw [h5] at hok
            dsimp only at hok ⊢
            cases h6 : create_additional_files preCommitSrc fs3
                (resolveTarget cwd project_name target_dir) template project_name
            · rw [h6] at hok
              simp at hok
            · rename_i fs4
              constructor
              · intro ht
                subst ht
                exact create_additional_files_web preCommitSrc fs3
                  (resolveTarget cwd project_name target_dir) project_name fs4 h6
              · intro ht
                subst ht
                exact create_additional_files_cli preCommitSrc fs3
                  (resolveTarget cwd project_name target_dir) project_name fs4 h6

/-- C8 witness: a concrete successful `web` run (whose bootstrap step, like
`uv init`, creates the `src/<name>` layout) contains the starter file at
`site/src/site/main.py`. -/
theorem create_project_starter_files_witness :
    (create_project [("web", "t")] (some "u")
        (fun s => (true, s.mkdirParents ["site", "src", "site"])) none ⟨[], []⟩ []
        "site" "web" none none none).fs.fileContent ["site", "src", "site", "main.py"]
      = some web_main_content := by
  have h := create_project_starter_files [("web", "t")] (some "u")
      (fun s => (true, s.mkdirParents ["site", "src", "site"])) none ⟨[], []⟩ []
      "site" "web" none none none (by decide)
  exact h.1 rfl

end UVCreate
